import Mathlib

/-!
Verification of the wallet ledger service (src/src/middlewares/error.ts,
`WalletService` section, plus the storage schema of the knex migrations).

The money-movement core is embedded shallowly:

* JavaScript numbers are modelled by `JSNum`: a finite rational, NaN, or a
  signed infinity.  The comparison and addition operators follow IEEE
  semantics on these cases (NaN is incomparable, opposite infinities add to
  NaN).  Finite arithmetic is exact rational arithmetic.  This idealizes
  the source's double arithmetic: it is sound for the control-flow,
  sign and idempotency facts proved here, but deliberately NOT used to
  certify stored balance values at magnitudes where double rounding bites
  (the service's parseFloat/toFixed pipeline deviates from exact decimal
  arithmetic near the top of the DECIMAL(20,6) range, against the
  module's own "no floating point" principle; those value-level
  divergences are traced by hand against the source).
* `balance_decimal`, `amount_decimal` and `balance_after` are DECIMAL(20,6)
  columns; a stored value is modelled as an integer count of micro-units
  (the decimal string times 10^6).  `Number.prototype.toFixed(6)` followed
  by the column parse is `toFixed6`: round to nearest micro-unit, ties
  toward the larger value, exactly as ECMA-262 specifies toFixed.
* The database is a `Db` record of three tables plus an id counter
  (`newId` in src/src/db/index.ts draws fresh UUIDs; the model draws
  "id-0", "id-1", ... from the counter, which keeps ids fresh and the
  model executable).  Row order models creation-time order: the service
  always orders same-reference reads by created_at ascending and inserts
  carry monotone timestamps.
* `withTransaction` (src/src/db/index.ts) rolls the whole transaction back
  when the callback throws and propagates the error.  An operation is
  therefore `Db → Except WErr (Db × result)`: an `.error` outcome commits
  nothing, and `applyOp` keeps the pre-state in that case.
* The service re-reads the rows it has just written before returning
  (inside the same open transaction, on the same connection); the model
  returns the written values directly, which is what that read yields.
-/

deriving instance DecidableEq for Except

namespace WalletService

/-- A JavaScript number as the wallet service observes it: a finite value
(modelled as an exact rational), NaN, or a signed infinity. -/
inductive JSNum where
  | finite (q : ℚ)
  | nan
  | posInf
  | negInf
deriving DecidableEq

/-- IEEE `<=` on `JSNum`: false whenever NaN is involved. -/
def jsLe : JSNum → JSNum → Bool
  | .nan, _ => false
  | _, .nan => false
  | .negInf, _ => true
  | _, .posInf => true
  | .posInf, _ => false
  | .finite _, .negInf => false
  | .finite a, .finite b => decide (a ≤ b)

/-- IEEE `<` on `JSNum`: false whenever NaN is involved. -/
def jsLt : JSNum → JSNum → Bool
  | .nan, _ => false
  | _, .nan => false
  | .posInf, _ => false
  | _, .posInf => true
  | .negInf, .negInf => false
  | .negInf, _ => true
  | .finite _, .negInf => false
  | .finite a, .finite b => decide (a < b)

/-- IEEE negation on `JSNum`. -/
def jsNeg : JSNum → JSNum
  | .finite a => .finite (-a)
  | .nan => .nan
  | .posInf => .negInf
  | .negInf => .posInf

/-- Addition on `JSNum` with IEEE special-value behaviour (opposite
infinities give NaN, NaN propagates).  Finite addition is exact rational
addition, an idealization of double arithmetic: see `parseBalance` for
what this does and does not support. -/
def jsAdd : JSNum → JSNum → JSNum
  | .nan, _ => .nan
  | _, .nan => .nan
  | .posInf, .negInf => .nan
  | .negInf, .posInf => .nan
  | .posInf, _ => .posInf
  | _, .posInf => .posInf
  | .negInf, _ => .negInf
  | _, .negInf => .negInf
  | .finite a, .finite b => .finite (a + b)

/-- IEEE subtraction on `JSNum`. -/
def jsSub (a b : JSNum) : JSNum := jsAdd a (jsNeg b)

/-- Round a rational to micro-units the way `toFixed(6)` does: nearest
integer number of micro-units, ties toward the larger value. -/
def round6 (q : ℚ) : ℤ := ⌊q * 1000000 + 1 / 2⌋

/-- `x.toFixed(6)` followed by the DECIMAL(20,6) column parse on insert.
NaN and the infinities stringify to "NaN" / "Infinity", which the DECIMAL
column rejects, so they carry no stored value. -/
def toFixed6 : JSNum → Option ℤ
  | .finite q => some (round6 q)
  | _ => none

/-- `parseFloat(wallet.balance_decimal)` for a stored balance of `b`
micro-units.  The source's parseFloat yields the nearest IEEE double; the
model reads the decimal back exactly.  The theorems below state
control-flow and sign-level facts that are insensitive to that rounding;
the stored-value divergences it causes at large DECIMAL(20,6) magnitudes
are documented against the source by hand, not asserted here. -/
def parseBalance (b : ℤ) : JSNum := .finite ((b : ℚ) / 1000000)

/-- The `type` enum of the transactions table. -/
inductive TxnType where
  | credit
  | debit
  | transferIn
  | transferOut
deriving DecidableEq

/-- The `status` enum of the transfers table. -/
inductive TransferStatus where
  | pending
  | completed
  | failed
deriving DecidableEq

/-- Stored JSON metadata, as a flat key/value object. -/
abbrev Metadata := List (String × String)

/-- A row of the wallets table.  `balance` holds `balance_decimal` in
micro-units.  Timestamps are omitted (creation order is list order). -/
structure Wallet where
  id : String
  user_id : String
  balance : ℤ
  currency : String
deriving DecidableEq

/-- A row of the transactions table (one immutable ledger entry).
`amount` and `balance_after` are `amount_decimal` / `balance_after` in
micro-units. -/
structure Txn where
  id : String
  wallet_id : String
  type : TxnType
  amount : ℤ
  balance_after : ℤ
  reference : String
  metadata : Option Metadata
deriving DecidableEq

/-- A row of the transfers table. -/
structure TransferRec where
  id : String
  from_wallet_id : String
  to_wallet_id : String
  amount : ℤ
  status : TransferStatus
  reference : String
deriving DecidableEq

/-- The storage state: the three tables, in creation order, plus the id
supply for `newId`. -/
structure Db where
  wallets : List Wallet
  transactions : List Txn
  transfers : List TransferRec
  nextId : ℕ
deriving DecidableEq

/-- Model of `newId()`: the n-th fresh identifier. -/
def newId (n : ℕ) : String := "id-" ++ toString n

/-- `getWalletByUserId`: `trx("wallets").where({ user_id: userId }).first()`.
The `forUpdate` row lock has no effect on the sequential state. -/
def getWalletByUserId (db : Db) (userId : String) : Option Wallet :=
  db.wallets.find? (fun w => w.user_id == userId)

/-- `trx("wallets").where({ id }).first()`. -/
def getWalletById (db : Db) (id : String) : Option Wallet :=
  db.wallets.find? (fun w => w.id == id)

/-- `checkIdempotency`: `trx("transactions").where({ reference }).first()`. -/
def checkIdempotency (db : Db) (reference : String) : Option Txn :=
  db.transactions.find? (fun t => t.reference == reference)

/-- `trx("transfers").where({ reference }).first()`. -/
def findTransferByRef (db : Db) (reference : String) : Option TransferRec :=
  db.transfers.find? (fun t => t.reference == reference)

/-- `trx("transactions").where({ reference }).orderBy("created_at", "asc")`:
list order models creation order. -/
def txnsByRef (db : Db) (reference : String) : List Txn :=
  db.transactions.filter (fun t => t.reference == reference)

/-- `trx("wallets").where({ id }).update({ balance_decimal: newBal })`. -/
def updateWalletBalance (db : Db) (walletId : String) (newBal : ℤ) : Db :=
  { db with wallets := db.wallets.map (fun w =>
      if w.id == walletId then { w with balance := newBal } else w) }

/-- `trx("transfers").where({ id }).update({ status })`. -/
def setTransferStatus (db : Db) (transferId : String) (st : TransferStatus) : Db :=
  { db with transfers := db.transfers.map (fun t =>
      if t.id == transferId then { t with status := st } else t) }

/-- The error kinds the operations can surface.  The service throws plain
`Error`s with distinct messages; each constructor stands for one of them,
or for a storage-layer rejection surfaced through knex:
`invalidAmount` = "Amount must be positive", `selfTransfer` = "Cannot
transfer to yourself", `walletNotFound`/`sourceWalletNotFound`/
`destWalletNotFound` = the wallet lookup failures, `insufficientFunds` =
"Insufficient funds...", `duplicateReference` = the unique-constraint
rejection of an insert (ER_DUP_ENTRY), `checkViolation` = a CHECK or
column-type rejection of an insert. -/
inductive WErr where
  | invalidAmount
  | selfTransfer
  | walletNotFound (userId : String)
  | sourceWalletNotFound (userId : String)
  | destWalletNotFound (userId : String)
  | insufficientFunds
  | duplicateReference
  | checkViolation
deriving DecidableEq

/-- Insert into `transactions`.  The create-transactions migration
(src/unnamed/part_014) declares `reference` UNIQUE and
`CHECK (amount_decimal > 0)`; an insert violating either raises through
knex and aborts the enclosing transaction.  The wallet foreign key is
always satisfied by the service (it inserts the id of a wallet row it has
just read), so it is not re-checked here. -/
def insertTxn (db : Db) (t : Txn) : Except WErr Db :=
  if db.transactions.any (fun t0 => t0.reference == t.reference) then
    .error .duplicateReference
  else if t.amount ≤ 0 then
    .error .checkViolation
  else
    .ok { db with transactions := db.transactions ++ [t] }

/-- Insert into `transfers`.  The provided migration
(20240104000000_create_transfers.ts) declares `reference` UNIQUE and
`CHECK (amount_decimal > 0)`.  The foreign keys on the wallet columns are
always satisfied by the service (it inserts ids of rows it just read), so
they are not re-checked here. -/
def insertTransfer (db : Db) (t : TransferRec) : Except WErr Db :=
  if db.transfers.any (fun t0 => t0.reference == t.reference) then
    .error .duplicateReference
  else if t.amount ≤ 0 then
    .error .checkViolation
  else
    .ok { db with transfers := db.transfers ++ [t] }

/-- The metadata stored on a transfer leg:
`JSON.stringify(metadata ? { ...metadata, transfer_id } : { transfer_id })`.
The spread keeps one binding per key with `transfer_id` set last. -/
def mergeTransferId (m : Option Metadata) (transferId : String) : Metadata :=
  (m.getD []).filter (fun p => p.1 != "transfer_id") ++ [("transfer_id", transferId)]

/-- `WalletService.fund` (src/src/middlewares/error.ts:313-379): validate,
then inside one transaction: idempotency short-circuit, lock wallet,
compute the new balance, insert the credit entry, update the balance. -/
def fund (db : Db) (userId : String) (amount : JSNum) (reference : String)
    (metadata : Option Metadata) : Except WErr (Db × Wallet × Txn) :=
  if jsLe amount (JSNum.finite 0) then .error .invalidAmount else
  match checkIdempotency db reference with
  | some existingTxn =>
    match getWalletByUserId db userId with
    | none => .error (.walletNotFound userId)
    | some wallet => .ok (db, wallet, existingTxn)
  | none =>
    match getWalletByUserId db userId with
    | none => .error (.walletNotFound userId)
    | some wallet =>
      match toFixed6 amount,
            toFixed6 (jsAdd (parseBalance wallet.balance) amount) with
      | some amountM, some newBal =>
        let t : Txn :=
          { id := newId db.nextId, wallet_id := wallet.id, type := .credit,
            amount := amountM, balance_after := newBal,
            reference := reference, metadata := metadata }
        match insertTxn { db with nextId := db.nextId + 1 } t with
        | .error e => .error e
        | .ok db1 =>
          .ok (updateWalletBalance db1 wallet.id newBal,
               { wallet with balance := newBal }, t)
      | _, _ => .error .checkViolation

/-- `WalletService.withdraw` (src/src/middlewares/error.ts:406-478): like
`fund` with a balance-sufficiency check and a debit entry. -/
def withdraw (db : Db) (userId : String) (amount : JSNum) (reference : String)
    (metadata : Option Metadata) : Except WErr (Db × Wallet × Txn) :=
  if jsLe amount (JSNum.finite 0) then .error .invalidAmount else
  match checkIdempotency db reference with
  | some existingTxn =>
    match getWalletByUserId db userId with
    | none => .error (.walletNotFound userId)
    | some wallet => .ok (db, wallet, existingTxn)
  | none =>
    match getWalletByUserId db userId with
    | none => .error (.walletNotFound userId)
    | some wallet =>
      if jsLt (parseBalance wallet.balance) amount then
        .error .insufficientFunds
      else
        match toFixed6 amount,
              toFixed6 (jsSub (parseBalance wallet.balance) amount) with
        | some amountM, some newBal =>
          let t : Txn :=
            { id := newId db.nextId, wallet_id := wallet.id, type := .debit,
              amount := amountM, balance_after := newBal,
              reference := reference, metadata := metadata }
          match insertTxn { db with nextId := db.nextId + 1 } t with
          | .error e => .error e
          | .ok db1 =>
            .ok (updateWalletBalance db1 wallet.id newBal,
                 { wallet with balance := newBal }, t)
        | _, _ => .error .checkViolation

/-- The deadlock-avoidance lock ordering of `WalletService.transfer`
(src/src/middlewares/error.ts:559-561): the pair of user ids in the order
their wallet rows are locked, smaller user id first under JavaScript
string comparison (lexicographic; Lean's `String` order agrees on the
ASCII identifiers the service uses). -/
def lockOrder (fromUserId toUserId : String) : String × String :=
  if fromUserId < toUserId then (fromUserId, toUserId) else (toUserId, fromUserId)

/-- `WalletService.transfer` (src/src/middlewares/error.ts:508-673):
validate amount and self-transfer, idempotency short-circuit on the
transfers table, lock both wallets in `lockOrder`, re-map to
source/destination, balance check, insert the transfer record (pending),
insert the two legs, update both balances, mark the transfer completed. -/
def transfer (db : Db) (fromUserId toUserId : String) (amount : JSNum)
    (reference : String) (metadata : Option Metadata) :
    Except WErr (Db × TransferRec × Wallet × Wallet × List Txn) :=
  if jsLe amount (JSNum.finite 0) then .error .invalidAmount else
  if fromUserId == toUserId then .error .selfTransfer else
  match findTransferByRef db reference with
  | some existingTransfer =>
    match getWalletById db existingTransfer.from_wallet_id,
          getWalletById db existingTransfer.to_wallet_id with
    | some fw, some tw => .ok (db, existingTransfer, fw, tw, txnsByRef db reference)
    | _, _ => .error .checkViolation
    -- The wallet foreign keys of the transfers table (ON DELETE CASCADE)
    -- guarantee both rows exist whenever the transfer row does, so the
    -- fallback arm is unreachable in any state the store can hold.
  | none =>
    let lo := lockOrder fromUserId toUserId
    let firstWallet := getWalletByUserId db lo.1
    let secondWallet := getWalletByUserId db lo.2
    let fromWallet := if fromUserId == lo.1 then firstWallet else secondWallet
    let toWallet := if toUserId == lo.1 then firstWallet else secondWallet
    match fromWallet with
    | none => .error (.sourceWalletNotFound fromUserId)
    | some fw =>
      match toWallet with
      | none => .error (.destWalletNotFound toUserId)
      | some tw =>
        if jsLt (parseBalance fw.balance) amount then
          .error .insufficientFunds
        else
          match toFixed6 amount,
                toFixed6 (jsSub (parseBalance fw.balance) amount),
                toFixed6 (jsAdd (parseBalance tw.balance) amount) with
          | some amountM, some newFromBal, some newToBal =>
            let transferId := newId db.nextId
            let outTxn : Txn :=
              { id := newId (db.nextId + 1), wallet_id := fw.id,
                type := .transferOut, amount := amountM,
                balance_after := newFromBal, reference := reference,
                metadata := some (mergeTransferId metadata transferId) }
            let inTxn : Txn :=
              { id := newId (db.nextId + 2), wallet_id := tw.id,
                type := .transferIn, amount := amountM,
                balance_after := newToBal, reference := reference,
                metadata := some (mergeTransferId metadata transferId) }
            match insertTransfer { db with nextId := db.nextId + 3 }
                    { id := transferId, from_wallet_id := fw.id,
                      to_wallet_id := tw.id, amount := amountM,
                      status := .pending, reference := reference } with
            | .error e => .error e
            | .ok db1 =>
              match insertTxn db1 outTxn with
              | .error e => .error e
              | .ok db2 =>
                match insertTxn db2 inTxn with
                | .error e => .error e
                | .ok db3 =>
                  let db4 := updateWalletBalance db3 fw.id newFromBal
                  let db5 := updateWalletBalance db4 tw.id newToBal
                  let db6 := setTransferStatus db5 transferId .completed
                  .ok (db6,
                       { id := transferId, from_wallet_id := fw.id,
                         to_wallet_id := tw.id, amount := amountM,
                         status := .completed, reference := reference },
                       { fw with balance := newFromBal },
                       { tw with balance := newToBal },
                       txnsByRef db6 reference)
          | _, _, _ => .error .checkViolation

/-- One caller-level invocation of the money-movement engine. -/
inductive WalletOp where
  | fundOp (userId : String) (amount : JSNum) (reference : String)
      (metadata : Option Metadata)
  | withdrawOp (userId : String) (amount : JSNum) (reference : String)
      (metadata : Option Metadata)
  | transferOp (fromUserId toUserId : String) (amount : JSNum)
      (reference : String) (metadata : Option Metadata)
deriving DecidableEq

/-- Run one operation for its state effect. -/
def runOp (db : Db) : WalletOp → Except WErr Db
  | .fundOp u a r m => (fund db u a r m).map (fun x => x.1)
  | .withdrawOp u a r m => (withdraw db u a r m).map (fun x => x.1)
  | .transferOp u v a r m => (transfer db u v a r m).map (fun x => x.1)

/-- The state after one invocation: the committed state on success, the
unchanged state on any failure (`withTransaction` rolls back every write
of a failed operation). -/
def applyOp (db : Db) (op : WalletOp) : Db :=
  match runOp db op with
  | .ok db1 => db1
  | .error _ => db

/-- The state after a finite sequence of invocations. -/
def applyOps (db : Db) (ops : List WalletOp) : Db := ops.foldl applyOp db

/-- Every stored wallet balance is non-negative. -/
def nonNegBalances (db : Db) : Prop := ∀ w ∈ db.wallets, 0 ≤ w.balance

/-- The amount of an operation, as passed by the caller. -/
def opAmount : WalletOp → JSNum
  | .fundOp _ a _ _ => a
  | .withdrawOp _ a _ _ => a
  | .transferOp _ _ a _ _ => a

/-- A positive finite amount. -/
def amountPositiveFinite (a : JSNum) : Prop := ∃ q : ℚ, a = .finite q ∧ 0 < q

end WalletService

namespace WalletService

/-! ### Arithmetic facts about the decimal quantization -/

theorem round6_int_add (b : ℤ) (x : ℚ) : ⌊(b : ℚ) + x⌋ = b + ⌊x⌋ :=
  Int.floor_int_add b x

theorem round6_intDiv (m : ℤ) : round6 ((m : ℚ) / 1000000) = m := by
  unfold round6
  rw [div_mul_cancel₀ _ (by norm_num : (1000000 : ℚ) ≠ 0), round6_int_add]
  norm_num [Int.floor_eq_zero_iff]

theorem toFixed6_finite (q : ℚ) : toFixed6 (.finite q) = some (round6 q) := rfl

theorem toFixed6_add_parse (b : ℤ) (q : ℚ) :
    toFixed6 (jsAdd (parseBalance b) (.finite q)) = some (b + round6 q) := by
  show some (round6 ((b : ℚ) / 1000000 + q)) = some (b + round6 q)
  unfold round6
  rw [add_mul, div_mul_cancel₀ _ (by norm_num : (1000000 : ℚ) ≠ 0), add_assoc,
    round6_int_add]

theorem toFixed6_sub_parse (b : ℤ) (q : ℚ) :
    toFixed6 (jsSub (parseBalance b) (.finite q)) = some (b + round6 (-q)) :=
  toFixed6_add_parse b (-q)

theorem round6_neg_intDiv (m : ℤ) : round6 (-((m : ℚ) / 1000000)) = -m := by
  rw [← neg_div, show -(m : ℚ) = ((-m : ℤ) : ℚ) by push_cast; ring, round6_intDiv]

theorem round6_nonneg {q : ℚ} (h : 0 ≤ q) : 0 ≤ round6 q := by
  unfold round6
  rw [Int.floor_nonneg]
  positivity

theorem jsLe_finite_zero (q : ℚ) :
    jsLe (.finite q) (.finite 0) = false ↔ 0 < q := by
  simp [jsLe, not_le]

theorem jsLt_parse_finite (b : ℤ) (q : ℚ) :
    jsLt (parseBalance b) (.finite q) = false ↔ q ≤ (b : ℚ) / 1000000 := by
  simp [jsLt, parseBalance, not_lt]

/-! ### Inversion facts about the storage inserts -/

theorem insertTxn_ok {db : Db} {t : Txn} {db1 : Db}
    (h : insertTxn db t = .ok db1) :
    db.transactions.any (fun t0 => t0.reference == t.reference) = false ∧
    0 < t.amount ∧ db1 = { db with transactions := db.transactions ++ [t] } := by
  unfold insertTxn at h
  split at h
  · exact absurd h (by simp)
  · split at h
    · exact absurd h (by simp)
    · refine ⟨by simp_all, by omega, by injection h with h1; exact h1.symm⟩

theorem insertTransfer_ok {db : Db} {t : TransferRec} {db1 : Db}
    (h : insertTransfer db t = .ok db1) :
    db.transfers.any (fun t0 => t0.reference == t.reference) = false ∧
    0 < t.amount ∧ db1 = { db with transfers := db.transfers ++ [t] } := by
  unfold insertTransfer at h
  split at h
  · exact absurd h (by simp)
  · split at h
    · exact absurd h (by simp)
    · refine ⟨by simp_all, by omega, by injection h with h1; exact h1.symm⟩

theorem fund_idem {db : Db} {u : String} {a : JSNum} {r : String}
    {m : Option Metadata} {t : Txn} {w : Wallet}
    (hv : jsLe a (.finite 0) = false)
    (ht : checkIdempotency db r = some t)
    (hw : getWalletByUserId db u = some w) :
    fund db u a r m = .ok (db, w, t) := by
  simp only [fund, hv, ht, hw, Bool.false_eq_true, if_false]

theorem withdraw_idem {db : Db} {u : String} {a : JSNum} {r : String}
    {m : Option Metadata} {t : Txn} {w : Wallet}
    (hv : jsLe a (.finite 0) = false)
    (ht : checkIdempotency db r = some t)
    (hw : getWalletByUserId db u = some w) :
    withdraw db u a r m = .ok (db, w, t) := by
  simp only [withdraw, hv, ht, hw, Bool.false_eq_true, if_false]

theorem transfer_idem {db : Db} {u v : String} {a : JSNum} {r : String}
    {m : Option Metadata} {tr : TransferRec} {fw tw : Wallet}
    (hv : jsLe a (.finite 0) = false)
    (huv : (u == v) = false)
    (ht : findTransferByRef db r = some tr)
    (hf : getWalletById db tr.from_wallet_id = some fw)
    (htw : getWalletById db tr.to_wallet_id = some tw) :
    transfer db u v a r m = .ok (db, tr, fw, tw, txnsByRef db r) := by
  simp only [transfer, hv, huv, ht, hf, htw, Bool.false_eq_true, if_false]

end WalletService

namespace WalletService

/-! ### Inversion of the operations -/

/-- Any successful `fund` either took the idempotency short-circuit (state
unchanged, prior entry returned) or credited the locked wallet by a
positive finite amount with the corresponding entry appended. -/
theorem fund_ok_inv {db : Db} {u : String} {a : JSNum} {r : String}
    {m : Option Metadata} {db1 : Db} {w1 : Wallet} {t1 : Txn}
    (h : fund db u a r m = .ok (db1, w1, t1)) :
    (db1 = db ∧ checkIdempotency db r = some t1 ∧ getWalletByUserId db u = some w1) ∨
    (∃ w q, getWalletByUserId db u = some w ∧ a = .finite q ∧ 0 < q ∧
      checkIdempotency db r = none ∧ 0 < round6 q ∧
      t1 = { id := newId db.nextId, wallet_id := w.id, type := .credit,
             amount := round6 q, balance_after := w.balance + round6 q,
             reference := r, metadata := m } ∧
      w1 = { w with balance := w.balance + round6 q } ∧
      db1 = { wallets := db.wallets.map (fun w0 =>
                if w0.id == w.id then { w0 with balance := w.balance + round6 q } else w0),
              transactions := db.transactions ++ [t1],
              transfers := db.transfers,
              nextId := db.nextId + 1 }) := by
  unfold fund at h
  split at h
  next => exact absurd h (by simp)
  next hv =>
  split at h
  next t0 hI =>
    -- idempotency hit
    split at h
    next => exact absurd h (by simp)
    next wallet hW =>
      injection h with h'
      injection h' with e1 h''
      injection h'' with e2 e3
      subst e1; subst e2; subst e3
      exact Or.inl ⟨rfl, hI, hW⟩
  next hI =>
    split at h
    next => exact absurd h (by simp)
    next wallet hW =>
    split at h
    next amountM newBal hA hNb =>
      simp only [] at h
      split at h
      next e hIns => exact absurd h (by simp)
      next dbI hIns =>
        injection h with h'
        injection h' with e1 h''
        injection h'' with e2 e3
        obtain ⟨hFresh, hPos, rfl⟩ := insertTxn_ok hIns
        cases a with
        | nan => exact absurd hA (by simp [toFixed6])
        | posInf => exact absurd hA (by simp [toFixed6])
        | negInf => exact absurd hA (by simp [toFixed6])
        | finite q =>
          rw [toFixed6_finite] at hA
          injection hA with hA
          rw [toFixed6_add_parse] at hNb
          injection hNb with hNb
          subst hA; subst hNb
          refine Or.inr ⟨wallet, q, hW, rfl, ?_, hI, hPos, ?_, ?_, ?_⟩
          · exact (jsLe_finite_zero q).mp (Bool.not_eq_true _ ▸ hv)
          · exact e3.symm
          · exact e2.symm
          · rw [← e1, ← e3]
            rfl
    next hA hNb => exact absurd h (by simp)


/-- Any successful `withdraw` either took the idempotency short-circuit or
debited the locked wallet after the sufficiency check, with the debit
entry appended. -/
theorem withdraw_ok_inv {db : Db} {u : String} {a : JSNum} {r : String}
    {m : Option Metadata} {db1 : Db} {w1 : Wallet} {t1 : Txn}
    (h : withdraw db u a r m = .ok (db1, w1, t1)) :
    (db1 = db ∧ checkIdempotency db r = some t1 ∧ getWalletByUserId db u = some w1) ∨
    (∃ w q, getWalletByUserId db u = some w ∧ a = .finite q ∧ 0 < q ∧
      checkIdempotency db r = none ∧
      jsLt (parseBalance w.balance) (.finite q) = false ∧ 0 < round6 q ∧
      t1 = { id := newId db.nextId, wallet_id := w.id, type := .debit,
             amount := round6 q, balance_after := w.balance + round6 (-q),
             reference := r, metadata := m } ∧
      w1 = { w with balance := w.balance + round6 (-q) } ∧
      db1 = { wallets := db.wallets.map (fun w0 =>
                if w0.id == w.id then { w0 with balance := w.balance + round6 (-q) } else w0),
              transactions := db.transactions ++ [t1],
              transfers := db.transfers,
              nextId := db.nextId + 1 }) := by
  unfold withdraw at h
  split at h
  next => exact absurd h (by simp)
  next hv =>
  split at h
  next t0 hI =>
    split at h
    next => exact absurd h (by simp)
    next wallet hW =>
      injection h with h'
      injection h' with e1 h''
      injection h'' with e2 e3
      subst e1; subst e2; subst e3
      exact Or.inl ⟨rfl, hI, hW⟩
  next hI =>
    split at h
    next => exact absurd h (by simp)
    next wallet hW =>
    split at h
    next => exact absurd h (by simp)
    next hLt =>
    split at h
    next amountM newBal hA hNb =>
      simp only [] at h
      split at h
      next e hIns => exact absurd h (by simp)
      next dbI hIns =>
        injection h with h'
        injection h' with e1 h''
        injection h'' with e2 e3
        obtain ⟨hFresh, hPos, rfl⟩ := insertTxn_ok hIns
        cases a with
        | nan => exact absurd hA (by simp [toFixed6])
        | posInf => exact absurd hA (by simp [toFixed6])
        | negInf => exact absurd hA (by simp [toFixed6])
        | finite q =>
          rw [toFixed6_finite] at hA
          injection hA with hA
          rw [toFixed6_sub_parse] at hNb
          injection hNb with hNb
          subst hA; subst hNb
          refine Or.inr ⟨wallet, q, hW, rfl, ?_, hI, Bool.not_eq_true _ ▸ hLt, hPos,
            e3.symm, e2.symm, ?_⟩
          · exact (jsLe_finite_zero q).mp (Bool.not_eq_true _ ▸ hv)
          · rw [← e1, ← e3]
            rfl
    next hA hNb => exact absurd h (by simp)

theorem transfer_ok_db {db : Db} {u v : String} {a : JSNum} {r : String}
    {m : Option Metadata} {db1 : Db} {tr : TransferRec} {fw tw : Wallet}
    {l : List Txn}
    (h : transfer db u v a r m = .ok (db1, tr, fw, tw, l)) : db1 = db := by
  unfold transfer at h
  split at h
  next => exact absurd h (by simp)
  next hv =>
  split at h
  next => exact absurd h (by simp)
  next huv =>
  split at h
  next tr0 hT =>
    split at h
    next fw0 tw0 hF hTw =>
      injection h with h'
      exact (congrArg Prod.fst h').symm
    next => exact absurd h (by simp)
  next hT =>
    simp only [] at h
    split at h
    next => exact absurd h (by simp)
    next fw1 hFw =>
    split at h
    next => exact absurd h (by simp)
    next tw1 hTw =>
    split at h
    next => exact absurd h (by simp)
    next hLt =>
    split at h
    next amountM nfb ntb hA hNfb hNtb =>
      split at h
      next => exact absurd h (by simp)
      next dbT hInsT =>
      split at h
      next => exact absurd h (by simp)
      next db2 hIns1 =>
      split at h
      next => exact absurd h (by simp)
      next db3 hIns2 =>
        obtain ⟨hf1, hp1, rfl⟩ := insertTxn_ok hIns1
        obtain ⟨hFresh2, hp2, e3⟩ := insertTxn_ok hIns2
        simp [List.any_append] at hFresh2
    next hA hNfb hNtb => exact absurd h (by simp)

end WalletService

namespace WalletService

/-! ### Preservation lemmas -/

theorem any_ref_false_of_none {db : Db} {r : String}
    (h : checkIdempotency db r = none) :
    db.transactions.any (fun t0 => t0.reference == r) = false := by
  rw [checkIdempotency, List.find?_eq_none] at h
  rw [List.any_eq_false]
  intro t0 ht0
  exact h t0 ht0

theorem applyOp_transferOp (db : Db) (u v : String) (a : JSNum) (r : String)
    (m : Option Metadata) : applyOp db (.transferOp u v a r m) = db := by
  cases h : transfer db u v a r m with
  | error e => simp [applyOp, runOp, h, Except.map]
  | ok x =>
    obtain ⟨db1, tr, fw, tw, l⟩ := x
    simp [applyOp, runOp, h, Except.map, transfer_ok_db h]

theorem withdraw_newBal_nonneg {b : ℤ} {q : ℚ}
    (hq : q ≤ (b : ℚ) / 1000000) : 0 ≤ b + round6 (-q) := by
  have he : b + round6 (-q) = ⌊((b : ℚ) - q * 1000000) + 1 / 2⌋ := by
    unfold round6
    rw [← Int.floor_int_add]
    congr 1
    ring
  rw [he, Int.floor_nonneg]
  have hm : q * 1000000 ≤ (b : ℚ) := by
    have := mul_le_mul_of_nonneg_right hq (by norm_num : (0:ℚ) ≤ 1000000)
    rwa [div_mul_cancel₀ _ (by norm_num : (1000000 : ℚ) ≠ 0)] at this
  linarith

theorem nonNeg_applyOp {db : Db} (op : WalletOp) (h : nonNegBalances db) :
    nonNegBalances (applyOp db op) := by
  cases op with
  | transferOp u v a r m => rw [applyOp_transferOp]; exact h
  | fundOp u a r m =>
    cases hf : fund db u a r m with
    | error e => simpa [applyOp, runOp, hf, Except.map] using h
    | ok x =>
      obtain ⟨db1, w1, t1⟩ := x
      simp only [applyOp, runOp, hf, Except.map]
      rcases fund_ok_inv hf with ⟨rfl, -, -⟩ | ⟨w, q, hW, rfl, hq, hI, hPos, ht1, hw1, rfl⟩
      · exact h
      · intro w0 hw0
        simp only [List.mem_map] at hw0
        obtain ⟨wsrc, hsrc, rfl⟩ := hw0
        by_cases hid : (wsrc.id == w.id) = true
        · rw [if_pos hid]
          exact add_nonneg (h w (List.mem_of_find?_eq_some hW)) (le_of_lt hPos)
        · rw [if_neg hid]
          exact h wsrc hsrc
  | withdrawOp u a r m =>
    cases hf : withdraw db u a r m with
    | error e => simpa [applyOp, runOp, hf, Except.map] using h
    | ok x =>
      obtain ⟨db1, w1, t1⟩ := x
      simp only [applyOp, runOp, hf, Except.map]
      rcases withdraw_ok_inv hf with ⟨rfl, -, -⟩ |
        ⟨w, q, hW, rfl, hq, hI, hLt, hPos, ht1, hw1, rfl⟩
      · exact h
      · intro w0 hw0
        simp only [List.mem_map] at hw0
        obtain ⟨wsrc, hsrc, rfl⟩ := hw0
        by_cases hid : (wsrc.id == w.id) = true
        · rw [if_pos hid]
          exact withdraw_newBal_nonneg ((jsLt_parse_finite _ _).mp hLt)
        · rw [if_neg hid]
          exact h wsrc hsrc


/-- C1: For every finite sequence of fund, withdraw and transfer operations
with positive finite amounts, starting from wallets whose balances are
non-negative, every state reached (hence the state after every operation
that succeeds) has every stored wallet balance non-negative; an operation
that fails contributes nothing, since `applyOp` keeps the rolled-back
pre-state.  (The proof does not even need the positivity hypothesis: the
engine rejects or rolls back everything that would break the bound.) -/
theorem c1_balances_never_negative (ops : List WalletOp) (db : Db)
    (hpos : ∀ op ∈ ops, amountPositiveFinite (opAmount op))
    (h : nonNegBalances db) :
    nonNegBalances (applyOps db ops) := by
  induction ops generalizing db with
  | nil => exact h
  | cons op rest ih =>
    exact ih (applyOp db op) (fun o ho => hpos o (List.mem_cons_of_mem _ ho))
      (nonNeg_applyOp op h)

/-- Witness for C1 at a concrete state and operation sequence: a wallet
holding 100.000000 that is funded with 500, debited 600, then involved in
a transfer attempt. -/
theorem c1_balances_never_negative_witness :
    nonNegBalances
      (applyOps
        { wallets := [{ id := "w1", user_id := "u1", balance := 100000000,
                        currency := "NGN" },
                      { id := "w2", user_id := "u2", balance := 0,
                        currency := "NGN" }],
          transactions := [], transfers := [], nextId := 0 }
        [.fundOp "u1" (.finite 500) "r1" none,
         .withdrawOp "u1" (.finite 600) "r2" none,
         .transferOp "u1" "u2" (.finite 1) "r3" none]) := by
  refine c1_balances_never_negative _ _ ?_ ?_
  · intro op hop
    simp only [List.mem_cons, List.not_mem_nil, or_false] at hop
    rcases hop with rfl | rfl | rfl
    · exact ⟨500, rfl, by norm_num⟩
    · exact ⟨600, rfl, by norm_num⟩
    · exact ⟨1, rfl, by norm_num⟩
  · intro w hw
    simp only [List.mem_cons, List.not_mem_nil, or_false] at hw
    rcases hw with rfl | rfl <;> norm_num

end WalletService

namespace WalletService

/-! ### Concrete evaluation helpers -/

theorem round6_eval (q : ℚ) (m : ℤ) (h1 : (m : ℚ) ≤ q * 1000000 + 1 / 2)
    (h2 : q * 1000000 + 1 / 2 < (m : ℚ) + 1) : round6 q = m := by
  unfold round6
  rw [Int.floor_eq_iff]
  exact ⟨h1, h2⟩

theorem any_transferRef_false_of_none {db : Db} {r : String}
    (h : findTransferByRef db r = none) :
    db.transfers.any (fun t0 => t0.reference == r) = false := by
  rw [findTransferByRef, List.find?_eq_none] at h
  rw [List.any_eq_false]
  intro t0 ht0
  exact h t0 ht0

theorem any_txnRef_true_of_mem {db : Db} {r : String}
    (h : ∃ t ∈ db.transactions, t.reference = r) :
    db.transactions.any (fun t0 => t0.reference == r) = true := by
  rw [List.any_eq_true]
  obtain ⟨t, ht, htr⟩ := h
  exact ⟨t, ht, by simp [htr]⟩

end WalletService

namespace WalletService

/-- C4: The spec's transfer scenario — transfer 300 from Alice's wallet
(balance 1000.000000) to Bob's (balance 500.000000) with a fresh reference
— cannot succeed against the declared schema: `transfer` inserts its two
ledger legs with the SAME reference (src/src/middlewares/error.ts:608-629),
and the transactions table's unique constraint on `reference`
(src/unnamed/part_014) rejects the second leg, so the whole transaction
rolls back and the call surfaces the
duplicate-reference storage failure instead of the completed transfer the
spec describes.  This theorem evaluates the code at that failing input. -/
theorem c4_transfer_duplicate_reference_bug :
    transfer
      { wallets := [{ id := "wa", user_id := "alice", balance := 1000000000,
                      currency := "NGN" },
                    { id := "wb", user_id := "bob", balance := 500000000,
                      currency := "NGN" }],
        transactions := [], transfers := [], nextId := 0 }
      "alice" "bob" (.finite 300) "T-1" none = .error .duplicateReference := by
  have h1 : jsLe (JSNum.finite 300) (JSNum.finite 0) = false :=
    (jsLe_finite_zero 300).mpr (by norm_num)
  have h2 : jsLt (parseBalance 1000000000) (JSNum.finite 300) = false :=
    (jsLt_parse_finite 1000000000 300).mpr (by norm_num)
  have h3 : round6 (300 : ℚ) = 300000000 := round6_eval _ _ (by norm_num) (by norm_num)
  have h4 : round6 (-300 : ℚ) = -300000000 := round6_eval _ _ (by norm_num) (by norm_num)
  by_cases hlo : ("alice" : String) < "bob"
  · simp only [transfer, h1, h2, h3, h4, lockOrder, if_pos hlo,
      findTransferByRef, getWalletByUserId, getWalletById,
      txnsByRef, List.find?, List.filter, List.any, insertTxn, insertTransfer,
      updateWalletBalance, setTransferStatus, newId, toFixed6_finite,
      toFixed6_add_parse, toFixed6_sub_parse, mergeTransferId]
    simp [h2]
  · simp only [transfer, h1, h2, h3, h4, lockOrder, if_neg hlo,
      findTransferByRef, getWalletByUserId, getWalletById,
      txnsByRef, List.find?, List.filter, List.any, insertTxn, insertTransfer,
      updateWalletBalance, setTransferStatus, newId, toFixed6_finite,
      toFixed6_add_parse, toFixed6_sub_parse, mergeTransferId]
    simp [h2]

end WalletService


namespace WalletService

/-- Counterexample to C8 as stated: in a state where ledger entry "r0"
exists but no transfer record does, transfer does not catch the storage
duplicate-reference rejection and return the existing record — it
propagates the failure to the caller. -/
theorem c8_duplicate_reference_counterexample :
    transfer
      { wallets := [{ id := "w1", user_id := "u1", balance := 5000000, currency := "NGN" },
                    { id := "w2", user_id := "u2", balance := 1000000, currency := "NGN" }],
        transactions := [{ id := "t0", wallet_id := "w1", type := .credit,
                           amount := 5000000, balance_after := 5000000,
                           reference := "r0", metadata := none }],
        transfers := [], nextId := 7 }
      "u1" "u2" (.finite 2) "r0" none = .error .duplicateReference := by
  have hv : jsLe (JSNum.finite 2) (JSNum.finite 0) = false :=
    (jsLe_finite_zero 2).mpr (by norm_num)
  have hlt : jsLt (parseBalance 5000000) (JSNum.finite 2) = false :=
    (jsLt_parse_finite 5000000 2).mpr (by norm_num)
  have h3 : round6 (2 : ℚ) = 2000000 := round6_eval _ _ (by norm_num) (by norm_num)
  have h4 : round6 (-2 : ℚ) = -2000000 := round6_eval _ _ (by norm_num) (by norm_num)
  by_cases hlo : ("u1" : String) < "u2"
  · simp only [transfer, hv, hlt, h3, h4, lockOrder, if_pos hlo,
      findTransferByRef, getWalletByUserId, getWalletById, txnsByRef,
      List.find?, List.filter, List.any, insertTxn, insertTransfer,
      updateWalletBalance, setTransferStatus, newId, toFixed6_finite,
      toFixed6_add_parse, toFixed6_sub_parse, mergeTransferId]
    simp [hlt]
  · simp only [transfer, hv, hlt, h3, h4, lockOrder, if_neg hlo,
      findTransferByRef, getWalletByUserId, getWalletById, txnsByRef,
      List.find?, List.filter, List.any, insertTxn, insertTransfer,
      updateWalletBalance, setTransferStatus, newId, toFixed6_finite,
      toFixed6_add_parse, toFixed6_sub_parse, mergeTransferId]
    simp [hlt]

/-- C8 (amended): when a ledger entry already carries reference r and no
transfer record does, transfer(u, v, a, r) reaches the leg insert, the
unique constraint on transactions.reference (src/unnamed/part_014)
rejects it, and the operation
propagates the duplicate-reference failure as a hard error while the
rolled-back transaction leaves the state (hence all balances) unchanged;
nothing is caught or translated into returning the existing record. -/
theorem c8_duplicate_reference_amended {db : Db} {u v : String} {mq : ℤ}
    {r : String} {m : Option Metadata} {fw tw : Wallet}
    (huv : (u == v) = false)
    (hmq : 1 ≤ mq)
    (htx : ∃ t ∈ db.transactions, t.reference = r)
    (htr : findTransferByRef db r = none)
    (hfw : getWalletByUserId db u = some fw)
    (htw : getWalletByUserId db v = some tw)
    (hbal : mq ≤ fw.balance) :
    transfer db u v (.finite ((mq : ℚ) / 1000000)) r m = .error .duplicateReference ∧
    applyOp db (.transferOp u v (.finite ((mq : ℚ) / 1000000)) r m) = db := by
  refine ⟨?_, applyOp_transferOp db u v _ r m⟩
  have hmq0 : (0 : ℚ) < (mq : ℚ) := by exact_mod_cast lt_of_lt_of_le one_pos hmq
  have hv : jsLe (.finite ((mq : ℚ) / 1000000)) (.finite 0) = false :=
    (jsLe_finite_zero _).mpr (by positivity)
  have hlt : jsLt (parseBalance fw.balance) (.finite ((mq : ℚ) / 1000000)) = false := by
    rw [jsLt_parse_finite]
    exact (div_le_div_iff_of_pos_right (by norm_num : (0:ℚ) < 1000000)).mpr (by exact_mod_cast hbal)
  have hanyT := any_transferRef_false_of_none htr
  have hanyX := any_txnRef_true_of_mem htx
  have hvu : (v == u) = false := by
    rw [beq_eq_false_iff_ne] at huv ⊢
    exact fun hvu => huv hvu.symm
  have hnmq : ¬ (mq ≤ 0) := by omega
  by_cases hlo : u < v
  · simp only [transfer, hv, huv, htr, Bool.false_eq_true, if_false, lockOrder,
      if_pos hlo, beq_self_eq_true, if_true, hvu, hfw, htw, hlt,
      toFixed6_finite, toFixed6_sub_parse, toFixed6_add_parse,
      round6_intDiv, round6_neg_intDiv, insertTransfer, insertTxn,
      hanyT, hanyX, hnmq]
  · simp only [transfer, hv, huv, htr, Bool.false_eq_true, if_false, lockOrder,
      if_neg hlo, beq_self_eq_true, if_true, hvu, hfw, htw, hlt,
      toFixed6_finite, toFixed6_sub_parse, toFixed6_add_parse,
      round6_intDiv, round6_neg_intDiv, insertTransfer, insertTxn,
      hanyT, hanyX, hnmq]

/-- Witness for C8 (amended) at a concrete two-wallet state whose ledger
already holds reference "rdup". -/
theorem c8_duplicate_reference_amended_witness :
    transfer { wallets := [{ id := "w1", user_id := "u1", balance := 9000000,
                             currency := "NGN" },
                           { id := "w2", user_id := "u2", balance := 2000000,
                             currency := "NGN" }],
               transactions := [{ id := "t5", wallet_id := "w1", type := .credit,
                                  amount := 9000000, balance_after := 9000000,
                                  reference := "rdup", metadata := none }],
               transfers := [], nextId := 0 }
      "u1" "u2" (.finite ((3000000 : ℤ) / 1000000 : ℚ)) "rdup" none =
      .error .duplicateReference ∧
    applyOp { wallets := [{ id := "w1", user_id := "u1", balance := 9000000,
                            currency := "NGN" },
                          { id := "w2", user_id := "u2", balance := 2000000,
                            currency := "NGN" }],
              transactions := [{ id := "t5", wallet_id := "w1", type := .credit,
                                 amount := 9000000, balance_after := 9000000,
                                 reference := "rdup", metadata := none }],
              transfers := [], nextId := 0 }
      (.transferOp "u1" "u2" (.finite ((3000000 : ℤ) / 1000000 : ℚ)) "rdup" none) =
      { wallets := [{ id := "w1", user_id := "u1", balance := 9000000,
                      currency := "NGN" },
                    { id := "w2", user_id := "u2", balance := 2000000,
                      currency := "NGN" }],
        transactions := [{ id := "t5", wallet_id := "w1", type := .credit,
                           amount := 9000000, balance_after := 9000000,
                           reference := "rdup", metadata := none }],
        transfers := [], nextId := 0 } :=
  c8_duplicate_reference_amended (by decide) (by norm_num)
    ⟨{ id := "t5", wallet_id := "w1", type := .credit, amount := 9000000,
       balance_after := 9000000, reference := "rdup", metadata := none },
      by simp, rfl⟩
    rfl rfl rfl (by norm_num)

/-- C2: Re-invoking fund, withdraw or transfer with an already-used
reference and the same logical request short-circuits on the idempotency
pre-check: the call returns the previously created transaction (resp.
transfer with its two legs, read back by shared reference in creation
order) unchanged, paired with a plain non-locking re-read of current
wallet state, and the returned state is exactly the pre-state — no insert
and no balance update happens. -/
theorem c2_idempotent_short_circuit :
    (∀ (db : Db) (u : String) (q : ℚ) (r : String) (m : Option Metadata)
       (t : Txn) (w : Wallet),
      0 < q → checkIdempotency db r = some t → getWalletByUserId db u = some w →
      fund db u (.finite q) r m = .ok (db, w, t)) ∧
    (∀ (db : Db) (u : String) (q : ℚ) (r : String) (m : Option Metadata)
       (t : Txn) (w : Wallet),
      0 < q → checkIdempotency db r = some t → getWalletByUserId db u = some w →
      withdraw db u (.finite q) r m = .ok (db, w, t)) ∧
    (∀ (db : Db) (u v : String) (q : ℚ) (r : String) (m : Option Metadata)
       (tr : TransferRec) (fw tw : Wallet),
      0 < q → (u == v) = false → findTransferByRef db r = some tr →
      getWalletById db tr.from_wallet_id = some fw →
      getWalletById db tr.to_wallet_id = some tw →
      transfer db u v (.finite q) r m = .ok (db, tr, fw, tw, txnsByRef db r)) := by
  refine ⟨?_, ?_, ?_⟩
  · intro db u q r m t w hq hI hW
    exact fund_idem ((jsLe_finite_zero q).mpr hq) hI hW
  · intro db u q r m t w hq hI hW
    exact withdraw_idem ((jsLe_finite_zero q).mpr hq) hI hW
  · intro db u v q r m tr fw tw hq huv hT hF hTw
    exact transfer_idem ((jsLe_finite_zero q).mpr hq) huv hT hF hTw

/-- Witness for C2 at a concrete state holding a prior entry "rr" and a
prior transfer "TT". -/
theorem c2_idempotent_short_circuit_witness :
    fund { wallets := [{ id := "w1", user_id := "u1", balance := 100000000, currency := "NGN" },
                       { id := "w2", user_id := "u2", balance := 40000000, currency := "NGN" }],
           transactions := [{ id := "t0", wallet_id := "w1", type := .credit,
                              amount := 5000000, balance_after := 100000000,
                              reference := "rr", metadata := none }],
           transfers := [{ id := "tr0", from_wallet_id := "w1", to_wallet_id := "w2",
                           amount := 5000000, status := .completed, reference := "TT" }],
           nextId := 3 }
      "u1" (.finite 5) "rr" none =
      .ok ({ wallets := [{ id := "w1", user_id := "u1", balance := 100000000, currency := "NGN" },
                         { id := "w2", user_id := "u2", balance := 40000000, currency := "NGN" }],
             transactions := [{ id := "t0", wallet_id := "w1", type := .credit,
                                amount := 5000000, balance_after := 100000000,
                                reference := "rr", metadata := none }],
             transfers := [{ id := "tr0", from_wallet_id := "w1", to_wallet_id := "w2",
                             amount := 5000000, status := .completed, reference := "TT" }],
             nextId := 3 },
           { id := "w1", user_id := "u1", balance := 100000000, currency := "NGN" },
           { id := "t0", wallet_id := "w1", type := .credit, amount := 5000000,
             balance_after := 100000000, reference := "rr", metadata := none }) ∧
    withdraw { wallets := [{ id := "w1", user_id := "u1", balance := 100000000, currency := "NGN" },
                           { id := "w2", user_id := "u2", balance := 40000000, currency := "NGN" }],
               transactions := [{ id := "t0", wallet_id := "w1", type := .credit,
                                  amount := 5000000, balance_after := 100000000,
                                  reference := "rr", metadata := none }],
               transfers := [{ id := "tr0", from_wallet_id := "w1", to_wallet_id := "w2",
                               amount := 5000000, status := .completed, reference := "TT" }],
               nextId := 3 }
      "u1" (.finite 5) "rr" none =
      .ok ({ wallets := [{ id := "w1", user_id := "u1", balance := 100000000, currency := "NGN" },
                         { id := "w2", user_id := "u2", balance := 40000000, currency := "NGN" }],
             transactions := [{ id := "t0", wallet_id := "w1", type := .credit,
                                amount := 5000000, balance_after := 100000000,
                                reference := "rr", metadata := none }],
             transfers := [{ id := "tr0", from_wallet_id := "w1", to_wallet_id := "w2",
                             amount := 5000000, status := .completed, reference := "TT" }],
             nextId := 3 },
           { id := "w1", user_id := "u1", balance := 100000000, currency := "NGN" },
           { id := "t0", wallet_id := "w1", type := .credit, amount := 5000000,
             balance_after := 100000000, reference := "rr", metadata := none }) ∧
    transfer { wallets := [{ id := "w1", user_id := "u1", balance := 100000000, currency := "NGN" },
                           { id := "w2", user_id := "u2", balance := 40000000, currency := "NGN" }],
               transactions := [{ id := "t0", wallet_id := "w1", type := .credit,
                                  amount := 5000000, balance_after := 100000000,
                                  reference := "rr", metadata := none }],
               transfers := [{ id := "tr0", from_wallet_id := "w1", to_wallet_id := "w2",
                               amount := 5000000, status := .completed, reference := "TT" }],
               nextId := 3 }
      "u1" "u2" (.finite 5) "TT" none =
      .ok ({ wallets := [{ id := "w1", user_id := "u1", balance := 100000000, currency := "NGN" },
                         { id := "w2", user_id := "u2", balance := 40000000, currency := "NGN" }],
             transactions := [{ id := "t0", wallet_id := "w1", type := .credit,
                                amount := 5000000, balance_after := 100000000,
                                reference := "rr", metadata := none }],
             transfers := [{ id := "tr0", from_wallet_id := "w1", to_wallet_id := "w2",
                             amount := 5000000, status := .completed, reference := "TT" }],
             nextId := 3 },
           { id := "tr0", from_wallet_id := "w1", to_wallet_id := "w2",
             amount := 5000000, status := .completed, reference := "TT" },
           { id := "w1", user_id := "u1", balance := 100000000, currency := "NGN" },
           { id := "w2", user_id := "u2", balance := 40000000, currency := "NGN" },
           []) :=
  ⟨c2_idempotent_short_circuit.1 _ _ _ _ _ _ _ (by norm_num) rfl rfl,
   c2_idempotent_short_circuit.2.1 _ _ _ _ _ _ _ (by norm_num) rfl rfl,
   c2_idempotent_short_circuit.2.2 _ _ _ _ _ _ _ _ _ (by norm_num) (by decide) rfl rfl rfl⟩

/-- C10: The idempotency guard matches on the reference alone.  For ANY
prior ledger entry t carrying reference r — whatever its wallet (possibly
another user), kind and amount — fund(u, a, r) and withdraw(u, a, r) for
any user u with a wallet succeed without writing anything, returning that
pre-existing entry together with u's own current wallet snapshot. -/
theorem c10_idempotency_reference_only :
    ∀ (db : Db) (u : String) (q : ℚ) (r : String) (m : Option Metadata)
      (t : Txn) (w : Wallet),
      0 < q → checkIdempotency db r = some t → getWalletByUserId db u = some w →
      fund db u (.finite q) r m = .ok (db, w, t) ∧
      withdraw db u (.finite q) r m = .ok (db, w, t) := by
  intro db u q r m t w hq hI hW
  exact ⟨fund_idem ((jsLe_finite_zero q).mpr hq) hI hW,
    withdraw_idem ((jsLe_finite_zero q).mpr hq) hI hW⟩

/-- Witness for C10: the prior entry lives on ANOTHER user's wallet (u2),
has kind transfer-in and amount 7, yet fund/withdraw by u1 with amount 5
return it unchanged with u1's wallet. -/
theorem c10_idempotency_reference_only_witness :
    fund { wallets := [{ id := "w1", user_id := "u1", balance := 100000000, currency := "NGN" },
                       { id := "w2", user_id := "u2", balance := 40000000, currency := "NGN" }],
           transactions := [{ id := "t9", wallet_id := "w2", type := .transferIn,
                              amount := 7000000, balance_after := 40000000,
                              reference := "rq", metadata := none }],
           transfers := [], nextId := 4 }
      "u1" (.finite 5) "rq" none =
      .ok ({ wallets := [{ id := "w1", user_id := "u1", balance := 100000000, currency := "NGN" },
                         { id := "w2", user_id := "u2", balance := 40000000, currency := "NGN" }],
             transactions := [{ id := "t9", wallet_id := "w2", type := .transferIn,
                                amount := 7000000, balance_after := 40000000,
                                reference := "rq", metadata := none }],
             transfers := [], nextId := 4 },
           { id := "w1", user_id := "u1", balance := 100000000, currency := "NGN" },
           { id := "t9", wallet_id := "w2", type := .transferIn, amount := 7000000,
             balance_after := 40000000, reference := "rq", metadata := none }) ∧
    withdraw { wallets := [{ id := "w1", user_id := "u1", balance := 100000000, currency := "NGN" },
                           { id := "w2", user_id := "u2", balance := 40000000, currency := "NGN" }],
               transactions := [{ id := "t9", wallet_id := "w2", type := .transferIn,
                                  amount := 7000000, balance_after := 40000000,
                                  reference := "rq", metadata := none }],
               transfers := [], nextId := 4 }
      "u1" (.finite 5) "rq" none =
      .ok ({ wallets := [{ id := "w1", user_id := "u1", balance := 100000000, currency := "NGN" },
                         { id := "w2", user_id := "u2", balance := 40000000, currency := "NGN" }],
             transactions := [{ id := "t9", wallet_id := "w2", type := .transferIn,
                                amount := 7000000, balance_after := 40000000,
                                reference := "rq", metadata := none }],
             transfers := [], nextId := 4 },
           { id := "w1", user_id := "u1", balance := 100000000, currency := "NGN" },
           { id := "t9", wallet_id := "w2", type := .transferIn, amount := 7000000,
             balance_after := 40000000, reference := "rq", metadata := none }) :=
  c10_idempotency_reference_only _ "u1" 5 "rq" none _ _ (by norm_num) rfl rfl

/-- C9: The transfer lock ordering is a pure total order independent of
call direction: for distinct users u and v, lockOrder u v = lockOrder v u,
the wallet of the lexicographically smaller user id is locked first and
the larger second. -/
theorem c9_lock_order_symmetric (u v : String) (h : u ≠ v) :
    lockOrder u v = lockOrder v u ∧
    (lockOrder u v).1 = min u v ∧ (lockOrder u v).2 = max u v := by
  unfold lockOrder
  rcases lt_trichotomy u v with hlt | heq | hgt
  · rw [if_pos hlt, if_neg (asymm hlt)]
    exact ⟨rfl, by simp [min_eq_left hlt.le, max_eq_right hlt.le]⟩
  · exact absurd heq h
  · rw [if_neg (asymm hgt), if_pos hgt]
    exact ⟨rfl, by simp [min_eq_right hgt.le, max_eq_left hgt.le]⟩

/-- Witness for C9 at the concrete pair of user ids "alice" and "bob". -/
theorem c9_lock_order_symmetric_witness :
    lockOrder "alice" "bob" = lockOrder "bob" "alice" ∧
    (lockOrder "alice" "bob").1 = min "alice" "bob" ∧
    (lockOrder "alice" "bob").2 = max "alice" "bob" :=
  c9_lock_order_symmetric "alice" "bob" (by decide)

end WalletService
